/-
  Verification of the media-to-places processing pipeline
  (Supabase edge function "process video with Gemini AI").

  Shallow embedding of the edge function's pure logic:
  * generateAddressFallbacks : the address-simplification heuristic;
  * geocodeAddress           : the Nominatim lookup loop, with the per-candidate
                               outcome (transport error / HTTP error / result list)
                               supplied by an oracle `lookup`;
  * analyzeVideoWithGemini   : response validation of the AI extraction step,
                               with the network+parse outcome supplied as an oracle;
  * serve                    : the request handler (status guard, pipeline steps,
                               commit, catch block), with every external collaborator
                               supplied through an `Env` of oracles, and the external
                               calls it performs recorded as a list of `Effect`s.

  JavaScript `Error` values are modelled by the inductive `PipelineError`
  (the `message` string of an error is the data carried by the constructor);
  a Supabase `{ data, error }` result is modelled by `SbResult`.
  Coordinates are rationals (ℚ); JS number truthiness (0 is falsy) is `truthyNum`.
-/
import Mathlib

namespace TokTrip

/-! ## Address fallback generation (source: generateAddressFallbacks) -/

/-- Helper for `jsSplit`: accumulate the current segment (reversed) while
scanning the character list; a separator closes the current segment. -/
def splitCharAux (sep : Char) : List Char → List Char → List (List Char)
  | [], acc => [acc.reverse]
  | c :: cs, acc =>
    if c = sep then acc.reverse :: splitCharAux sep cs []
    else splitCharAux sep cs (c :: acc)

/-- JavaScript `s.split(sep)` for a one-character separator (the source splits
on `','`): always returns at least one segment, and empty segments are kept. -/
def jsSplit (s : String) (sep : Char) : List String :=
  (splitCharAux sep s.data []).map String.mk

/-- JavaScript `s.trim()`: strip leading and trailing whitespace. -/
def jsTrim (s : String) : String :=
  String.mk (((s.data.dropWhile Char.isWhitespace).reverse.dropWhile Char.isWhitespace).reverse)

/-- Helper for `dedupFirst`: keep each element whose first occurrence it is,
tracking the set of elements already seen (the growing JS `Set`). -/
def dedupFirstAux : List String → List String → List String
  | [], _ => []
  | x :: xs, seen =>
    if x ∈ seen then dedupFirstAux xs seen
    else x :: dedupFirstAux xs (x :: seen)

/-- First-occurrence deduplication: the order-preserving semantics of
`[...new Set(variations)]` in JavaScript (keeps the first occurrence of
each element, in insertion order). -/
def dedupFirst (l : List String) : List String :=
  dedupFirstAux l []

/-- The `variations` list built by the source before deduplication: split the
address on commas and trim each segment; push the full address, then (if ≥4
segments) the address without its first segment (`parts.slice(1)`), then (if
≥3) the last two segments (`parts.slice(-2)`), then (if ≥2) the last segment
(`parts[parts.length - 1]`), each rejoined with `', '`. -/
def addressVariations (address : String) : List String :=
  let parts := (jsSplit address ',').map jsTrim
  [address]
  ++ (if 4 ≤ parts.length then [String.intercalate ", " (parts.drop 1)] else [])
  ++ (if 3 ≤ parts.length then [String.intercalate ", " (parts.drop (parts.length - 2))] else [])
  ++ (if 2 ≤ parts.length then [parts.getLastD ""] else [])

/-- `generateAddressFallbacks` from the source: the variations list with
duplicates removed via `[...new Set(variations)]`. -/
def generateAddressFallbacks (address : String) : List String :=
  dedupFirst (addressVariations address)

/-! ## Geocoding loop (source: geocodeAddress) -/

/-- Outcome of one Nominatim fetch for one candidate address:
the fetch may throw (transport error), return a non-success HTTP status,
or return a parsed JSON array of results, each carrying (lat, lon). -/
inductive FetchOutcome where
  | transportError
  | httpError (status : Nat)
  | results (rs : List (ℚ × ℚ))
  deriving Repr, DecidableEq

/-- One iteration of the geocoding loop body: a transport error or a
non-success response yields no match for this candidate (the loop continues);
an empty result array yields no match; otherwise the first result's
coordinates are returned. -/
def tryCandidate : FetchOutcome → Option (ℚ × ℚ)
  | .transportError => none
  | .httpError _ => none
  | .results [] => none
  | .results (r :: _) => some r

/-- The loop of `geocodeAddress` over an explicit candidate list:
return the first candidate's match, else continue; `none` after exhaustion. -/
def geocodeCore (lookup : String → FetchOutcome) : List String → Option (ℚ × ℚ)
  | [] => none
  | c :: cs =>
    match tryCandidate (lookup c) with
    | some r => some r
    | none => geocodeCore lookup cs

/-- The candidates actually attempted by the loop (each attempted candidate
issues exactly one external lookup call): every candidate up to and including
the first one that matches, or all of them if none matches. -/
def geocodeAttempted (lookup : String → FetchOutcome) : List String → List String
  | [] => []
  | c :: cs =>
    match tryCandidate (lookup c) with
    | some _ => [c]
    | none => c :: geocodeAttempted lookup cs

/-- `geocodeAddress` from the source: iterate over the fallback variations of
the address; total and `Option`-valued — every per-candidate failure is caught
inside the loop, so the function never raises an error. -/
def geocodeAddress (lookup : String → FetchOutcome) (address : String) : Option (ℚ × ℚ) :=
  geocodeCore lookup (generateAddressFallbacks address)

/-! ## Errors and Supabase results -/

/-- A JavaScript `Error` thrown inside the handler; the constructor's data is
the information interpolated into the error's `message` in the source. -/
inductive PipelineError where
  /-- "Storage download error: ..." (download returned an error). -/
  | storageDownload (msg : String)
  /-- "File too large: ... MB. Maximum is 50 MB." -/
  | fileTooLarge (sizeBytes : Nat)
  /-- "Gemini API error: status - body" (non-success HTTP from the AI endpoint). -/
  | geminiApi (status : Nat) (body : String)
  /-- "Invalid response structure from Gemini - no places array". -/
  | invalidStructure
  /-- "Invalid place structure at index i". -/
  | invalidPlace (idx : Nat)
  /-- "Invalid category at index i: c". -/
  | invalidCategory (idx : Nat) (category : String)
  /-- "No places found in video". -/
  | noPlacesFound
  /-- "Database insert error: ..." (insert returned an error). -/
  | databaseInsert (msg : String)
  deriving Repr, DecidableEq

/-- A Supabase client call result `{ data, error }`: either data or an error
message.  Supabase calls resolve with an error object instead of throwing. -/
inductive SbResult (α : Type) where
  | ok (data : α)
  | err (msg : String)
  deriving Repr, DecidableEq

/-! ## AI extraction (source: analyzeVideoWithGemini) -/

/-- A place object as parsed from the AI response JSON (`PlaceData` in the
source, before validation); `latitude`/`longitude` are optional. -/
structure RawPlace where
  place_name : String
  address_search_query : String
  category : String
  vibe_keywords : List String
  latitude : Option ℚ
  longitude : Option ℚ
  deriving Repr, DecidableEq

/-- The parsed AI response body (`GeminiResponse` in the source):
`places` is `none` when the parsed JSON has no `places` array. -/
structure GeminiRaw where
  places : Option (List RawPlace)
  deriving Repr, DecidableEq

/-- `validCategories` from the source. -/
def validCategories : List String := ["Food", "Activity", "Stay"]

/-- Range-check of one optional coordinate as in the source's validation
loop: a present value outside the closed range is set to `undefined`
(silently nulled); an in-range or absent value is kept as-is. -/
def rangeCheck (lo hi : ℚ) : Option ℚ → Option ℚ
  | none => none
  | some v => if v < lo ∨ hi < v then none else some v

/-- Validation of one place at index `idx`, as in the source's
`parsedData.places.forEach` body: an empty (falsy) `place_name`,
`address_search_query` or `category` throws "Invalid place structure";
a category outside `validCategories` throws "Invalid category";
otherwise the place is kept with its coordinates range-checked. -/
def validatePlace (idx : Nat) (place : RawPlace) : Except PipelineError RawPlace :=
  if place.place_name = "" ∨ place.address_search_query = "" ∨ place.category = "" then
    .error (.invalidPlace idx)
  else if validCategories.contains place.category then
    .ok { place with
          latitude := rangeCheck (-90) 90 place.latitude,
          longitude := rangeCheck (-180) 180 place.longitude }
  else
    .error (.invalidCategory idx place.category)

/-- Validation of the whole places list (index-carrying traversal of the
source's `forEach`): the first violation aborts the entire extraction. -/
def validatePlaces : Nat → List RawPlace → Except PipelineError (List RawPlace)
  | _, [] => .ok []
  | idx, p :: ps => do
    let p' ← validatePlace idx p
    let ps' ← validatePlaces (idx + 1) ps
    return p' :: ps'

/-- `analyzeVideoWithGemini` from the source, with the network call and JSON
parsing folded into the oracle `apiResult` (a non-success HTTP status from the
endpoint is `Except.error (.geminiApi ...)`).  A missing or empty `places`
array throws "Invalid response structure"; otherwise every place is validated
and the validated list returned. -/
def analyzeVideoWithGemini (apiResult : Except PipelineError GeminiRaw) :
    Except PipelineError (List RawPlace) := do
  let parsed ← apiResult
  match parsed.places with
  | none => .error .invalidStructure
  | some [] => .error .invalidStructure
  | some ps => validatePlaces 0 ps

/-! ## The request handler (source: serve)

The handler's external collaborators (storage download, Gemini call, Nominatim
lookups, delete/insert/update on the `places` table) are supplied as oracles in
`Env`; the calls the handler issues are recorded as `Effect`s.  Timestamps
(`created_at`/`updated_at`) and the base64 conversion of the media bytes are
data plumbing with no bearing on control flow and are not modelled. -/

/-- The triggering record (`requestBody.record`). -/
structure Record where
  id : String
  user_id : String
  video_path : String
  video_url : String
  status : String
  deriving Repr, DecidableEq

/-- The downloaded media object: its byte length and declared MIME type. -/
structure MediaBlob where
  sizeBytes : Nat
  mimeType : String
  deriving Repr, DecidableEq

/-- A row of the `places` table as built by the handler for insertion
(and as echoed back by `.insert(...).select()` on success). -/
structure PlaceRow where
  user_id : String
  video_path : String
  video_url : String
  place_name : String
  address_search_query : String
  category : String
  vibe_keywords : List String
  latitude : Option ℚ
  longitude : Option ℚ
  status : String
  deriving Repr, DecidableEq

/-- Oracles for every external call one invocation can make.
`insertOutcome = none` means the insert succeeded (and `.select()` echoes the
inserted rows); `insertOutcome = some msg` is an insert error.  The source never
reads the result of the delete call nor of the status update, which is why
`deleteResult` and `updateResult` are never consulted below. -/
structure Env where
  download : SbResult MediaBlob
  geminiApi : Except PipelineError GeminiRaw
  lookup : String → FetchOutcome
  deleteResult : SbResult Unit
  insertOutcome : Option String
  updateResult : SbResult Unit

/-- External calls issued by the handler, in order. -/
inductive Effect where
  | storageDownload (path : String)
  | geminiCall
  | geocodeFetch (query : String)
  | deletePlaces (id : String)
  | insertPlaces (rows : List PlaceRow)
  | updateStatus (id : String) (status : String) (errText : PipelineError)
  deriving Repr, DecidableEq

/-- JS truthiness of an optional number: `undefined`/`null` and `0` are falsy. -/
def truthyNum : Option ℚ → Bool
  | none => false
  | some v => v ≠ 0

/-- The coordinate selection of the per-place loop (source lines
`if (coords) ... else if (placeData.latitude && placeData.longitude) ... else`):
Nominatim's result when it matched; otherwise the AI coordinates when both are
truthy (present and nonzero); otherwise both null. -/
def resolveCoords (geo : Option (ℚ × ℚ)) (p : RawPlace) : Option ℚ × Option ℚ :=
  match geo with
  | some c => (some c.1, some c.2)
  | none =>
    if truthyNum p.latitude && truthyNum p.longitude then
      (p.latitude, p.longitude)
    else
      (none, none)

/-- One iteration of the per-place loop: geocode the place's address and build
the row pushed onto `placesWithCoords`. -/
def buildPlaceRow (record : Record) (lookup : String → FetchOutcome) (p : RawPlace) : PlaceRow :=
  let coords := geocodeAddress lookup p.address_search_query
  let resolved := resolveCoords coords p
  { user_id := record.user_id
    video_path := record.video_path
    video_url := record.video_url
    place_name := p.place_name
    address_search_query := p.address_search_query
    category := p.category
    vibe_keywords := p.vibe_keywords
    latitude := resolved.1
    longitude := resolved.2
    status := "completed" }

/-- `insertedPlaces.filter(p => p.latitude && p.longitude).length` from the
source: the count of inserted rows whose latitude and longitude are both
truthy. -/
def placesWithCoordinates (rows : List PlaceRow) : Nat :=
  (rows.filter (fun p => truthyNum p.latitude && truthyNum p.longitude)).length

/-- The commit step (delete the placeholder, insert the finalized rows).
The source awaits the delete without destructuring its `{ data, error }`
result, so `deleteResult` is ignored; only an insert error throws
("Database insert error: ..."). -/
def commitFinalRecords (deleteResult : SbResult Unit) (insertOutcome : Option String)
    (recordId : String) (payload : List PlaceRow) :
    Except PipelineError (List PlaceRow) × List Effect :=
  let effs : List Effect := [.deletePlaces recordId, .insertPlaces payload]
  match insertOutcome with
  | some msg => (.error (.databaseInsert msg), effs)
  | none => (.ok payload, effs)

/-- The geocoding effects issued while resolving one place: one fetch per
attempted candidate. -/
def geocodeEffects (lookup : String → FetchOutcome) (p : RawPlace) : List Effect :=
  (geocodeAttempted lookup (generateAddressFallbacks p.address_search_query)).map .geocodeFetch

/-- The body of the handler's `try` block after the status guard (steps 2–5:
download, size check, AI extraction, per-place geocoding, commit), returning
either the inserted rows or the first error thrown, together with the external
calls issued. -/
def pipelineCore (env : Env) (record : Record) :
    Except PipelineError (List PlaceRow) × List Effect :=
  match env.download with
  | .err msg => (.error (.storageDownload msg), [.storageDownload record.video_path])
  | .ok blob =>
    if 50 * 1024 * 1024 < blob.sizeBytes then
      (.error (.fileTooLarge blob.sizeBytes), [.storageDownload record.video_path])
    else
      match analyzeVideoWithGemini env.geminiApi with
      | .error e => (.error e, [.storageDownload record.video_path, .geminiCall])
      | .ok places =>
        if places.isEmpty then
          (.error .noPlacesFound, [.storageDownload record.video_path, .geminiCall])
        else
          let rows := places.map (buildPlaceRow record env.lookup)
          let geoEffs := places.flatMap (geocodeEffects env.lookup)
          let committed := commitFinalRecords env.deleteResult env.insertOutcome record.id rows
          (committed.1, [.storageDownload record.video_path, .geminiCall] ++ geoEffs ++ committed.2)

/-- The handler's HTTP response. -/
inductive ServeResult where
  /-- status 200, `{ message: 'Skipping - not in processing status' }`. -/
  | skip
  /-- status 200, `{ success: true, originalPlaceId, placesCreated,
  placesWithCoordinates, places }`. -/
  | success (originalPlaceId : String) (placesCreated : Nat)
      (placesWithCoordinates : Nat) (places : List PlaceRow)
  /-- status 500, `{ success: false, error: <message of the caught error> }`. -/
  | failure (errText : PipelineError)
  deriving Repr, DecidableEq

/-- Whether a response is the failure path (status 500). -/
def isFailure : ServeResult → Bool
  | .failure _ => true
  | _ => false

/-- The `serve` handler: the status guard returns a no-op success without any
external call; otherwise the pipeline runs, a success response reports the
counts, and the `catch` block performs one best-effort status update (guarded
by the truthiness of `record.id`, never retried, its own result ignored) and
returns a 500 response carrying the originally caught error. -/
def serve (env : Env) (record : Record) : ServeResult × List Effect :=
  if record.status ≠ "processing" then
    (.skip, [])
  else
    match pipelineCore env record with
    | (.ok rows, effs) =>
      (.success record.id rows.length (placesWithCoordinates rows) rows, effs)
    | (.error e, effs) =>
      if record.id ≠ "" then
        (.failure e, effs ++ [.updateStatus record.id "failed" e])
      else
        (.failure e, effs)

/-! ## Auxiliary definitions used to state the claims -/

/-- Whether an effect is a status update on the `places` table. -/
def isStatusUpdate : Effect → Bool
  | .updateStatus _ _ _ => true
  | _ => false

/-- Whether an extraction result is the spec's `InvalidExtraction` failure:
a per-place schema violation (missing required field or invalid category). -/
def isInvalidExtraction : Except PipelineError (List RawPlace) → Bool
  | .error (.invalidPlace _) => true
  | .error (.invalidCategory _ _) => true
  | _ => false

/-- The coordinate precedence exactly as the spec words it (§4.6 step 4):
the geocoder's match when there is one; otherwise the AI-provided coordinates
whenever they are present; otherwise null.  Stated for comparison with
`resolveCoords`, which embeds the source. -/
def resolveCoordsSpec (geo : Option (ℚ × ℚ)) (p : RawPlace) : Option ℚ × Option ℚ :=
  match geo with
  | some c => (some c.1, some c.2)
  | none =>
    match p.latitude, p.longitude with
    | some la, some lo => (some la, some lo)
    | _, _ => (none, none)

/-- The amended coordinate precedence: the geocoder's match when there is one;
otherwise the AI-provided coordinates whenever both are present and nonzero;
otherwise null. -/
def resolveCoordsAmended (geo : Option (ℚ × ℚ)) (p : RawPlace) : Option ℚ × Option ℚ :=
  match geo with
  | some c => (some c.1, some c.2)
  | none =>
    match p.latitude, p.longitude with
    | some la, some lo => if la = 0 ∨ lo = 0 then (none, none) else (some la, some lo)
    | _, _ => (none, none)

/-! ## Concrete instances used by witnesses and counterexamples -/

/-- A triggering record in `processing` status. -/
def recEx : Record :=
  { id := "rec1", user_id := "user1", video_path := "videos/v.mp4",
    video_url := "https://example.com/v.mp4", status := "processing" }

/-- A triggering record already in `completed` status. -/
def recDone : Record := { recEx with status := "completed" }

/-- A geocoding oracle on which every candidate matches with first result (1, 2). -/
def lookupHit : String → FetchOutcome := fun _ => .results [(1, 2)]

/-- A geocoding oracle on which every candidate returns an empty result array. -/
def lookupMiss : String → FetchOutcome := fun _ => .results []

/-- A geocoding oracle on which every fetch throws a transport error. -/
def lookupDown : String → FetchOutcome := fun _ => .transportError

/-- A structurally valid extracted place with in-range AI coordinate hints. -/
def goodPlace : RawPlace :=
  { place_name := "Eiffel Tower", address_search_query := "Eiffel Tower, Paris, France",
    category := "Activity", vibe_keywords := ["iconic", "romantic"],
    latitude := some 48, longitude := some 2 }

/-- A place whose category is not one of `Food`, `Activity`, `Stay`. -/
def drinkPlace : RawPlace :=
  { place_name := "Bar", address_search_query := "Bar, Lyon, France",
    category := "Drink", vibe_keywords := ["cozy"],
    latitude := none, longitude := none }

/-- A valid place carrying an out-of-range latitude hint. -/
def badLatPlace : RawPlace :=
  { place_name := "Eiffel Tower", address_search_query := "Eiffel Tower, Paris, France",
    category := "Food", vibe_keywords := ["k"],
    latitude := some 200, longitude := some 10 }

/-- A valid place whose AI latitude hint is exactly 0 (in range) with a
nonzero longitude. -/
def zeroLatPlace : RawPlace :=
  { place_name := "Null Island Cafe", address_search_query := "Null Island",
    category := "Food", vibe_keywords := ["zero"],
    latitude := some 0, longitude := some 50 }

/-- An environment in which every collaborator succeeds except the delete of
the placeholder record. -/
def envDeleteFails : Env :=
  { download := .ok { sizeBytes := 1000, mimeType := "video/mp4" },
    geminiApi := .ok { places := some [goodPlace] },
    lookup := lookupHit,
    deleteResult := .err "delete failed",
    insertOutcome := none,
    updateResult := .ok () }

/-- An inserted row whose latitude is exactly 0 and longitude nonzero. -/
def zeroRow : PlaceRow :=
  { user_id := "user1", video_path := "videos/v.mp4",
    video_url := "https://example.com/v.mp4", place_name := "Null Island Cafe",
    address_search_query := "Null Island", category := "Food",
    vibe_keywords := ["zero"], latitude := some 0, longitude := some 50,
    status := "completed" }

/-- An environment in which the storage download fails. -/
def envDownloadFails : Env :=
  { download := .err "object not found",
    geminiApi := .ok { places := some [goodPlace] },
    lookup := lookupHit,
    deleteResult := .ok (),
    insertOutcome := none,
    updateResult := .ok () }

/-! ## Helper lemmas -/

theorem dedupFirstAux_sublist (l : List String) :
    ∀ seen, List.Sublist (dedupFirstAux l seen) l := by
  induction l with
  | nil => intro seen; simp [dedupFirstAux]
  | cons x xs ih =>
    intro seen
    rw [dedupFirstAux]
    split
    · exact (ih seen).cons x
    · exact (ih (x :: seen)).cons₂ x

theorem not_mem_seen_of_mem_dedupFirstAux (l : List String) :
    ∀ seen y, y ∈ dedupFirstAux l seen → y ∉ seen := by
  induction l with
  | nil => intro seen y hy; simp [dedupFirstAux] at hy
  | cons x xs ih =>
    intro seen y hy
    rw [dedupFirstAux] at hy
    split at hy
    · exact ih seen y hy
    · rcases List.mem_cons.mp hy with rfl | hmem
      · assumption
      · exact fun hc => ih (x :: seen) y hmem (List.mem_cons_of_mem x hc)

theorem dedupFirstAux_nodup (l : List String) : ∀ seen, (dedupFirstAux l seen).Nodup := by
  induction l with
  | nil => intro seen; simp [dedupFirstAux]
  | cons x xs ih =>
    intro seen
    rw [dedupFirstAux]
    split
    · exact ih seen
    · refine List.nodup_cons.mpr ⟨fun hx => ?_, ih (x :: seen)⟩
      exact not_mem_seen_of_mem_dedupFirstAux xs (x :: seen) x hx (List.mem_cons_self x seen)

theorem dedupFirst_sublist (l : List String) : List.Sublist (dedupFirst l) l :=
  dedupFirstAux_sublist l []

theorem dedupFirst_length_le (l : List String) : (dedupFirst l).length ≤ l.length :=
  (dedupFirst_sublist l).length_le

theorem dedupFirst_nodup (l : List String) : (dedupFirst l).Nodup :=
  dedupFirstAux_nodup l []

theorem addressVariations_cons (address : String) :
    ∃ t, addressVariations address = address :: t :=
  ⟨_, rfl⟩

theorem addressVariations_length_le (address : String) :
    (addressVariations address).length ≤ 4 := by
  simp only [addressVariations]
  split_ifs <;> simp

theorem addressVariations_short (address : String)
    (h : (jsSplit address ',').length < 2) : addressVariations address = [address] := by
  have hlen : (List.map jsTrim (jsSplit address ',')).length < 2 := by simpa using h
  simp only [addressVariations]
  rw [if_neg (by omega), if_neg (by omega), if_neg (by omega)]
  rfl

theorem generateAddressFallbacks_cons (address : String) :
    ∃ t, generateAddressFallbacks address = address :: t := by
  obtain ⟨t, ht⟩ := addressVariations_cons address
  refine ⟨dedupFirstAux t [address], ?_⟩
  rw [generateAddressFallbacks, ht, dedupFirst, dedupFirstAux, if_neg (List.not_mem_nil address)]

theorem geocodeCore_none (lookup : String → FetchOutcome) (cs : List String)
    (h : ∀ c ∈ cs, tryCandidate (lookup c) = none) : geocodeCore lookup cs = none := by
  induction cs with
  | nil => rfl
  | cons c cs ih =>
    rw [geocodeCore, h c (List.mem_cons_self c cs)]
    exact ih fun d hd => h d (List.mem_cons_of_mem c hd)

theorem validatePlace_ok_category (idx : Nat) (p p' : RawPlace)
    (h : validatePlace idx p = .ok p') : validCategories.contains p.category = true := by
  unfold validatePlace at h
  split_ifs at h with h1 h2
  · exact h2

theorem validatePlace_error_invalid (idx : Nat) (p : RawPlace) (e : PipelineError)
    (h : validatePlace idx p = .error e) :
    isInvalidExtraction (Except.error e) = true := by
  unfold validatePlace at h
  split_ifs at h <;> (injection h with h; rw [← h]; rfl)

theorem validatePlaces_ok_categories (idx : Nat) (ps l : List RawPlace)
    (h : validatePlaces idx ps = .ok l) :
    ∀ p ∈ ps, validCategories.contains p.category = true := by
  induction ps generalizing idx l with
  | nil => intro p hp; cases hp
  | cons q qs ih =>
    intro p hp
    rw [validatePlaces] at h
    cases hq : validatePlace idx q with
    | error e => rw [hq] at h; cases h
    | ok q' =>
      rw [hq] at h
      cases hqs : validatePlaces (idx + 1) qs with
      | error e => rw [hqs] at h; cases h
      | ok l' =>
        cases hp with
        | head => exact validatePlace_ok_category idx q q' hq
        | tail _ hmem => exact ih (idx + 1) l' hqs p hmem

theorem validatePlaces_error_invalid (ps : List RawPlace) :
    ∀ (idx : Nat) (e : PipelineError), validatePlaces idx ps = .error e →
      isInvalidExtraction (Except.error e) = true := by
  induction ps with
  | nil => intro idx e h; cases h
  | cons q qs ih =>
    intro idx e h
    rw [validatePlaces] at h
    cases hq : validatePlace idx q with
    | error e' =>
      rw [hq] at h
      injection h with h
      rw [← h]
      exact validatePlace_error_invalid idx q e' hq
    | ok q' =>
      rw [hq] at h
      cases hqs : validatePlaces (idx + 1) qs with
      | error e' =>
        rw [hqs] at h
        injection h with h
        rw [← h]
        exact ih (idx + 1) e' hqs
      | ok l' => rw [hqs] at h; cases h

theorem validatePlace_ok (idx : Nat) (p : RawPlace)
    (h1 : p.place_name ≠ "") (h2 : p.address_search_query ≠ "")
    (h3 : validCategories.contains p.category = true) :
    validatePlace idx p =
      .ok { p with latitude := rangeCheck (-90) 90 p.latitude,
                   longitude := rangeCheck (-180) 180 p.longitude } := by
  have hcat : p.category ≠ "" := by
    have hmem : p.category ∈ validCategories := by simpa using h3
    simp only [validCategories, List.mem_cons, List.not_mem_nil, or_false] at hmem
    rcases hmem with h | h | h <;> simp [h]
  unfold validatePlace
  rw [if_neg (by simp [h1, h2, hcat]), if_pos h3]

theorem analyze_single (p p' : RawPlace) (h : validatePlace 0 p = .ok p') :
    analyzeVideoWithGemini (.ok { places := some [p] }) = .ok [p'] := by
  have hred : analyzeVideoWithGemini (.ok { places := some [p] }) = validatePlaces 0 [p] := rfl
  rw [hred, validatePlaces, h]
  rfl

/-! ## Claim theorems -/

/-- C4: for every comma-delimited address string with k comma-separated
segments, `generateAddressFallbacks` returns an ordered (a sublist of the
most-specific-first variations list), duplicate-free list of length at most 4
whose first element equals the input string; for k < 2 the output is exactly
the one-element list `[input]`. -/
theorem generateAddressFallbacks_contract (address : String) :
    (generateAddressFallbacks address).Nodup ∧
    (generateAddressFallbacks address).length ≤ 4 ∧
    (generateAddressFallbacks address).head? = some address ∧
    List.Sublist (generateAddressFallbacks address) (addressVariations address) ∧
    ((jsSplit address ',').length < 2 → generateAddressFallbacks address = [address]) := by
  refine ⟨dedupFirst_nodup _,
    (dedupFirst_length_le _).trans (addressVariations_length_le address), ?_,
    dedupFirst_sublist _, fun h => ?_⟩
  · obtain ⟨t, ht⟩ := generateAddressFallbacks_cons address
    rw [ht]; rfl
  · rw [generateAddressFallbacks, addressVariations_short address h]
    simp [dedupFirst, dedupFirstAux]

/-- Witness for C4 at a concrete single-segment address. -/
theorem generateAddressFallbacks_contract_witness :
    (jsSplit "Tokyo" ',').length < 2 ∧ generateAddressFallbacks "Tokyo" = ["Tokyo"] :=
  ⟨by decide, (generateAddressFallbacks_contract "Tokyo").2.2.2.2 (by decide)⟩

/-- C3: for every address, if every candidate in the fallback list yields no
geocoding match — a transport error, a non-success HTTP response, or an empty
result array on a candidate counts as no match for that candidate and the loop
continues with the remaining candidates — the resolver returns "not found"
(`none`).  `geocodeAddress` is a total `Option`-valued function, so it never
raises an error. -/
theorem geocodeAddress_exhausted (lookup : String → FetchOutcome) (address : String)
    (h : ∀ c ∈ generateAddressFallbacks address, tryCandidate (lookup c) = none) :
    geocodeAddress lookup address = none :=
  geocodeCore_none lookup _ h

/-- Witness for C3: every fetch throws a transport error, the resolver
returns "not found". -/
theorem geocodeAddress_exhausted_witness :
    geocodeAddress lookupDown "Eiffel Tower, Paris, France" = none :=
  geocodeAddress_exhausted lookupDown "Eiffel Tower, Paris, France"
    (fun _ _ => rfl)

/-- C5: for every address whose first fallback candidate (the full address
itself) returns at least one geocoding match, the resolver returns the
coordinates of that candidate's first result, and the only attempted candidate
is that first one — exactly one external lookup call is made. -/
theorem geocodeAddress_first_hit (lookup : String → FetchOutcome) (address : String)
    (r : ℚ × ℚ) (rs : List (ℚ × ℚ)) (h : lookup address = .results (r :: rs)) :
    geocodeAddress lookup address = some r ∧
    geocodeAttempted lookup (generateAddressFallbacks address) = [address] := by
  obtain ⟨t, ht⟩ := generateAddressFallbacks_cons address
  have hc : tryCandidate (lookup address) = some r := by rw [h]; rfl
  constructor
  · rw [geocodeAddress, ht, geocodeCore, hc]
  · rw [ht, geocodeAttempted, hc]

/-- Witness for C5: the first candidate matches with first result (1, 2);
one call is made and (1, 2) is returned. -/
theorem geocodeAddress_first_hit_witness :
    geocodeAddress lookupHit "Eiffel Tower, Paris, France" = some (1, 2) ∧
    geocodeAttempted lookupHit (generateAddressFallbacks "Eiffel Tower, Paris, France") =
      ["Eiffel Tower, Paris, France"] :=
  geocodeAddress_first_hit lookupHit "Eiffel Tower, Paris, France" (1, 2) [] rfl

/-- C7: for every AI response containing at least one place whose category is
not exactly one of `Food`, `Activity`, `Stay`, the entire extraction is
rejected with a per-place schema violation (the spec's `InvalidExtraction`) —
the result is an error, so no places from that response are accepted, even if
other places in the same response are individually valid. -/
theorem extraction_rejects_bad_category (ps : List RawPlace) (p : RawPlace)
    (hp : p ∈ ps) (hc : validCategories.contains p.category = false) :
    isInvalidExtraction (analyzeVideoWithGemini (Except.ok { places := some ps })) = true := by
  obtain ⟨q, qs, rfl⟩ : ∃ q qs, ps = q :: qs := by
    cases ps with
    | nil => cases hp
    | cons q qs => exact ⟨q, qs, rfl⟩
  have hred : analyzeVideoWithGemini (Except.ok { places := some (q :: qs) }) =
      validatePlaces 0 (q :: qs) := rfl
  rw [hred]
  cases hv : validatePlaces 0 (q :: qs) with
  | ok l =>
    rw [validatePlaces_ok_categories 0 _ l hv p hp] at hc
    cases hc
  | error e => exact validatePlaces_error_invalid _ 0 e hv

/-- Witness for C7: a response with one valid place and one place of
category `Drink` is rejected wholesale. -/
theorem extraction_rejects_bad_category_witness :
    isInvalidExtraction
      (analyzeVideoWithGemini (Except.ok { places := some [goodPlace, drinkPlace] })) = true :=
  extraction_rejects_bad_category [goodPlace, drinkPlace] drinkPlace
    (by simp [goodPlace, drinkPlace]) (by decide)

/-- C8: for every place in an AI response carrying a latitude outside
[-90, 90] or a longitude outside [-180, 180], extraction accepts the place
with that coordinate silently nulled (the validated place is returned `ok`
with the offending coordinate `none`); the out-of-range value does not cause
the extraction to fail. -/
theorem extraction_nulls_out_of_range (p : RawPlace) (idx : Nat)
    (h1 : p.place_name ≠ "") (h2 : p.address_search_query ≠ "")
    (h3 : validCategories.contains p.category = true) :
    (∀ v : ℚ, p.latitude = some v → v < -90 ∨ 90 < v →
      validatePlace idx p =
        .ok { p with latitude := none, longitude := rangeCheck (-180) 180 p.longitude } ∧
      analyzeVideoWithGemini (.ok { places := some [p] }) =
        .ok [{ p with latitude := none, longitude := rangeCheck (-180) 180 p.longitude }]) ∧
    (∀ v : ℚ, p.longitude = some v → v < -180 ∨ 180 < v →
      validatePlace idx p =
        .ok { p with latitude := rangeCheck (-90) 90 p.latitude, longitude := none } ∧
      analyzeVideoWithGemini (.ok { places := some [p] }) =
        .ok [{ p with latitude := rangeCheck (-90) 90 p.latitude, longitude := none }]) := by
  constructor
  · intro v hv hr
    have hnull : rangeCheck (-90) 90 p.latitude = none := by
      rw [hv, rangeCheck, if_pos hr]
    have hok := validatePlace_ok idx p h1 h2 h3
    rw [hnull] at hok
    have hok0 := validatePlace_ok 0 p h1 h2 h3
    rw [hnull] at hok0
    exact ⟨hok, analyze_single p _ hok0⟩
  · intro v hv hr
    have hnull : rangeCheck (-180) 180 p.longitude = none := by
      rw [hv, rangeCheck, if_pos hr]
    have hok := validatePlace_ok idx p h1 h2 h3
    rw [hnull] at hok
    have hok0 := validatePlace_ok 0 p h1 h2 h3
    rw [hnull] at hok0
    exact ⟨hok, analyze_single p _ hok0⟩

/-- Witness for C8: a place with latitude 200 is accepted, with latitude
nulled and its in-range longitude kept. -/
theorem extraction_nulls_out_of_range_witness :
    validatePlace 0 badLatPlace =
      .ok { badLatPlace with latitude := none,
                             longitude := rangeCheck (-180) 180 badLatPlace.longitude } ∧
    analyzeVideoWithGemini (.ok { places := some [badLatPlace] }) =
      .ok [{ badLatPlace with latitude := none,
                              longitude := rangeCheck (-180) 180 badLatPlace.longitude }] :=
  (extraction_nulls_out_of_range badLatPlace 0 (by decide) (by decide) (by decide)).1
    200 rfl (Or.inr (by norm_num))

/-- C2 counterexample: with the geocoder finding nothing and the AI supplying
the present, range-valid coordinates (0, 50), the spec's precedence yields
(0, 50) but the code persists null coordinates — the claim as stated is false
when a present AI coordinate equals 0. -/
theorem coordPrecedence_cex :
    geocodeAddress lookupMiss zeroLatPlace.address_search_query = none ∧
    zeroLatPlace.latitude = some 0 ∧ zeroLatPlace.longitude = some 50 ∧
    resolveCoordsSpec (geocodeAddress lookupMiss zeroLatPlace.address_search_query) zeroLatPlace
      = (some 0, some 50) ∧
    (buildPlaceRow recEx lookupMiss zeroLatPlace).latitude = none ∧
    (buildPlaceRow recEx lookupMiss zeroLatPlace).longitude = none :=
  ⟨by decide, rfl, rfl, by decide, by decide, by decide⟩

/-- C2 (amended): the persisted coordinates follow this precedence: the
geocoder's result whenever it returns a match; otherwise the AI-provided
coordinates whenever both are present and nonzero; otherwise null. -/
theorem coordPrecedence_amended (record : Record) (lookup : String → FetchOutcome)
    (p : RawPlace) :
    ((buildPlaceRow record lookup p).latitude, (buildPlaceRow record lookup p).longitude)
      = resolveCoordsAmended (geocodeAddress lookup p.address_search_query) p ∧
    ∀ geo, resolveCoords geo p = resolveCoordsAmended geo p := by
  have key : ∀ geo, resolveCoords geo p = resolveCoordsAmended geo p := by
    intro geo
    cases geo with
    | some c => rfl
    | none =>
      cases hla : p.latitude with
      | none => simp [resolveCoords, resolveCoordsAmended, truthyNum, hla]
      | some la =>
        cases hlo : p.longitude with
        | none => simp [resolveCoords, resolveCoordsAmended, truthyNum, hla, hlo]
        | some lo =>
          by_cases h1 : la = 0 <;> by_cases h2 : lo = 0 <;>
            simp [resolveCoords, resolveCoordsAmended, truthyNum, hla, hlo, h1, h2]
  refine ⟨?_, key⟩
  have hb : ((buildPlaceRow record lookup p).latitude, (buildPlaceRow record lookup p).longitude)
      = resolveCoords (geocodeAddress lookup p.address_search_query) p := rfl
  rw [hb, key]

/-- C10: a coordinate value of exactly 0 is treated as absent throughout the
handler — if geocoding returns "not found" and the AI latitude or longitude
equals 0, the AI fallback is skipped and the built record's latitude and
longitude are both null; and an inserted row whose latitude or longitude
equals 0 does not contribute to the `placesWithCoordinates` count. -/
theorem zeroCoordinate_absent :
    (∀ (record : Record) (lookup : String → FetchOutcome) (p : RawPlace),
      geocodeAddress lookup p.address_search_query = none →
      (p.latitude = some 0 ∨ p.longitude = some 0) →
      (buildPlaceRow record lookup p).latitude = none ∧
      (buildPlaceRow record lookup p).longitude = none) ∧
    (∀ (row : PlaceRow) (rows : List PlaceRow),
      (row.latitude = some 0 ∨ row.longitude = some 0) →
      placesWithCoordinates (row :: rows) = placesWithCoordinates rows) := by
  constructor
  · intro record lookup p hg hz
    have hres : resolveCoords (geocodeAddress lookup p.address_search_query) p = (none, none) := by
      rw [hg]
      rcases hz with hz | hz <;> simp [resolveCoords, truthyNum, hz]
    have hb1 : (buildPlaceRow record lookup p).latitude
        = (resolveCoords (geocodeAddress lookup p.address_search_query) p).1 := rfl
    have hb2 : (buildPlaceRow record lookup p).longitude
        = (resolveCoords (geocodeAddress lookup p.address_search_query) p).2 := rfl
    rw [hb1, hb2, hres]
    exact ⟨rfl, rfl⟩
  · intro row rows hz
    have hfalse : (truthyNum row.latitude && truthyNum row.longitude) = false := by
      rcases hz with hz | hz <;> simp [truthyNum, hz]
    simp [placesWithCoordinates, List.filter_cons, hfalse]

/-- Witness for C10 at a concrete place with AI latitude 0 and longitude 50
and a geocoder that never matches, and at a concrete inserted row with
latitude 0. -/
theorem zeroCoordinate_absent_witness :
    ((buildPlaceRow recEx lookupMiss zeroLatPlace).latitude = none ∧
     (buildPlaceRow recEx lookupMiss zeroLatPlace).longitude = none) ∧
    placesWithCoordinates [zeroRow] = placesWithCoordinates [] :=
  ⟨zeroCoordinate_absent.1 recEx lookupMiss zeroLatPlace (by decide) (Or.inl rfl),
   zeroCoordinate_absent.2 zeroRow [] (Or.inl rfl)⟩

/-- C6: for every triggering record whose status is not `processing`, the
handler returns the no-op success response and issues zero external calls —
no storage, AI, or geocoding call and no database mutation, so all persisted
state is unchanged. -/
theorem serve_skips_non_processing (env : Env) (record : Record)
    (h : record.status ≠ "processing") : serve env record = (.skip, []) := by
  rw [serve, if_pos h]

/-- Witness for C6 at a concrete `completed` record. -/
theorem serve_skips_non_processing_witness :
    serve envDeleteFails recDone = (.skip, []) :=
  serve_skips_non_processing envDeleteFails recDone (by decide)

theorem commitFinalRecords_effects (dr : SbResult Unit) (io : Option String)
    (rid : String) (payload : List PlaceRow) :
    (commitFinalRecords dr io rid payload).2 = [.deletePlaces rid, .insertPlaces payload] := by
  unfold commitFinalRecords
  cases io <;> rfl

theorem geocodeEffects_no_update (lookup : String → FetchOutcome) (p : RawPlace) :
    ∀ e ∈ geocodeEffects lookup p, isStatusUpdate e = false := by
  intro e he
  rw [geocodeEffects] at he
  obtain ⟨q, -, rfl⟩ := List.mem_map.mp he
  rfl

theorem pipelineCore_no_update (env : Env) (record : Record) :
    ∀ e ∈ (pipelineCore env record).2, isStatusUpdate e = false := by
  intro e he
  unfold pipelineCore at he
  split at he
  · simp at he; rw [he]; rfl
  · split at he
    · simp at he; rw [he]; rfl
    · split at he
      · simp at he
        rcases he with he | he <;> (rw [he]; rfl)
      · split at he
        · simp at he
          rcases he with he | he <;> (rw [he]; rfl)
        · dsimp only at he
          rw [commitFinalRecords_effects] at he
          simp only [List.append_assoc, List.mem_append, List.mem_cons,
            List.not_mem_nil, or_false, List.mem_flatMap] at he
          rcases he with (he | he) | ⟨q, -, hq⟩ | he | he <;>
            first
              | (subst he; rfl)
              | exact geocodeEffects_no_update env.lookup q _ hq

theorem pipelineCore_update_irrelevant (env : Env) (u : SbResult Unit) (record : Record) :
    pipelineCore { env with updateResult := u } record = pipelineCore env record := by
  cases env
  rfl

/-- C9: for every failure raised during steps 2–5 (the pipeline core), the
handler attempts exactly one best-effort status update of the source record to
`failed` whose error text is the originally caught error; the response is the
500 failure response carrying that same original error; and the outcome of the
status update itself is never consulted (so a failing update is not retried
and cannot change the reported failure). -/
theorem failurePath_single_update (env : Env) (record : Record) (e : PipelineError)
    (effs : List Effect) (hs : record.status = "processing") (hid : record.id ≠ "")
    (hp : pipelineCore env record = (.error e, effs)) :
    serve env record = (.failure e, effs ++ [.updateStatus record.id "failed" e]) ∧
    (serve env record).2.filter isStatusUpdate = [.updateStatus record.id "failed" e] ∧
    ∀ u : SbResult Unit, serve { env with updateResult := u } record = serve env record := by
  have hns : ¬record.status ≠ "processing" := by simp [hs]
  have hserve : serve env record = (.failure e, effs ++ [.updateStatus record.id "failed" e]) := by
    rw [serve, if_neg hns, hp]
    dsimp only
    rw [if_pos hid]
  refine ⟨hserve, ?_, ?_⟩
  · rw [hserve]
    show (effs ++ [Effect.updateStatus record.id "failed" e]).filter isStatusUpdate = _
    rw [List.filter_append]
    have h1 : effs.filter isStatusUpdate = [] := by
      rw [List.filter_eq_nil_iff]
      intro a ha
      have hmem : a ∈ (pipelineCore env record).2 := by rw [hp]; exact ha
      simp [pipelineCore_no_update env record a hmem]
    rw [h1]
    rfl
  · intro u
    rw [serve, serve, pipelineCore_update_irrelevant]

/-- Witness for C9: a failed storage download yields the 500 response with
that error, one status update carrying the same error, and an environment
whose status update itself fails produces the identical outcome. -/
theorem failurePath_single_update_witness :
    serve envDownloadFails recEx =
      (.failure (.storageDownload "object not found"),
       [.storageDownload "videos/v.mp4",
        .updateStatus "rec1" "failed" (.storageDownload "object not found")]) ∧
    serve { envDownloadFails with updateResult := .err "secondary failure" } recEx =
      serve envDownloadFails recEx := by
  have h := failurePath_single_update envDownloadFails recEx
    (.storageDownload "object not found") [.storageDownload "videos/v.mp4"]
    rfl (by decide) rfl
  exact ⟨h.1, h.2.2 (.err "secondary failure")⟩

/-- C1 counterexample: in an environment where the delete of the placeholder
record fails but every other collaborator succeeds, the handler does NOT take
the failure path — it proceeds to the insert and returns the success
response.  This refutes the claim that a failing delete makes the commit fail
with `PersistenceError`. -/
theorem commit_ignores_delete_cex :
    envDeleteFails.deleteResult = SbResult.err "delete failed" ∧
    isFailure (serve envDeleteFails recEx).1 = false ∧
    (serve envDeleteFails recEx).1 =
      ServeResult.success "rec1" 1 1 [buildPlaceRow recEx lookupHit goodPlace] :=
  ⟨rfl, by decide, by decide⟩

/-- C1 (amended): if the insert of the finalized place records fails, the
commit fails with the persistence error (the pipeline takes the failure path);
but the result of the delete of the placeholder record is never inspected, so
a delete failure does not fail the commit — the handler behaves identically
for every delete outcome. -/
theorem commit_insert_failure (dr : SbResult Unit) (rid : String) (payload : List PlaceRow) :
    (∀ msg, (commitFinalRecords dr (some msg) rid payload).1
      = .error (.databaseInsert msg)) ∧
    (commitFinalRecords dr none rid payload).1 = .ok payload ∧
    ∀ (env : Env) (record : Record) (d : SbResult Unit),
      serve { env with deleteResult := d } record = serve env record := by
  refine ⟨fun msg => rfl, rfl, fun env record d => ?_⟩
  have hpc : pipelineCore { env with deleteResult := d } record = pipelineCore env record := by
    cases env
    rfl
  rw [serve, serve, hpc]

end TokTrip
